import Mathlib

/-!
Shallow embedding of the trainpal monitoring core: the journey dedup state
machine (`internal/monitor/train.go`), the line dedup state machine
(`internal/monitor/tube.go`) and the time-window task scheduler
(`internal/scheduler/scheduler.go`), together with proofs of the spec's
claims about them.

Strings are modelled as Lean `String`s, manipulated through their character
lists (`String.data`) so that every operation is structurally recursive and
kernel-evaluable.  Go byte indexing and Lean character indexing agree on every
input on which the Go code can take the success path (the first four bytes
must then be ASCII digits), and both sides report failure otherwise, so the
embedding is outcome-faithful.  Times inside the scheduler are modelled as
integer seconds; a Go `time.Duration` subtraction `now.Sub(t)` becomes integer
subtraction.
-/

namespace Trainpal

/-- Character list of a string (`String.data`), the basis of all string
processing below. -/
def chars (s : String) : List Char := s.data

/-- Numeric value of a list of decimal digits, most significant first. -/
def digitsVal (cs : List Char) : Nat :=
  cs.foldl (fun a c => a * 10 + (c.toNat - 48)) 0

/-- Go `strconv.Atoi` on a character list: an optional sign followed by at
least one decimal digit, nothing else.  Returns the signed value. -/
def goAtoi (cs : List Char) : Option Int :=
  match cs with
  | '-' :: rest =>
      if rest ≠ [] ∧ rest.all Char.isDigit then some (-(digitsVal rest : Int)) else none
  | '+' :: rest =>
      if rest ≠ [] ∧ rest.all Char.isDigit then some (digitsVal rest : Int) else none
  | rest =>
      if rest ≠ [] ∧ rest.all Char.isDigit then some (digitsVal rest : Int) else none

/-- Go `strings.HasPrefix s pre`. -/
def goStartsWith (s pre : String) : Bool :=
  (chars pre).isPrefixOf (chars s)

/-- Function `parseHHMM` from `internal/monitor/train.go`: strip colons, require at
least four characters, read characters 0–1 as the hour and 2–3 as the minute
via `strconv.Atoi`.  The Go function returns `time.Date(0, 1, 1, h, m, 0, 0,
UTC)`; since `time.Date` normalises out-of-range fields, that instant is
determined by the total minute count `h * 60 + m`, which is what we return. -/
def parseHHMM (s : String) : Option Int :=
  let cs := (chars s).filter (fun c => c ≠ ':')
  if cs.length < 4 then none
  else
    match goAtoi (cs.take 2) with
    | none => none
    | some h =>
      match goAtoi ((cs.drop 2).take 2) with
      | none => none
      | some m => some (h * 60 + m)

/-- Function `calculateDelay` from `internal/monitor/train.go`: parse both HHMM
strings; any parse failure yields 0; otherwise the difference
actual − scheduled in whole minutes, with negative differences clamped
to 0. -/
def calculateDelay (scheduled actual : String) : Int :=
  match parseHHMM scheduled with
  | none => 0
  | some schedTime =>
    match parseHHMM actual with
    | none => 0
    | some actualTime =>
      let diff := actualTime - schedTime
      if diff < 0 then 0 else diff

/-- Function `parseTimeToday` from `internal/monitor/train.go`, which runs Go
`time.Parse("1504", timeStr)`: exactly four decimal digits, hour at most 23,
minute at most 59; the returned instant (today at that wall-clock time) is
determined by the minute-of-day count, which is what we return. -/
def parseTimeToday (timeStr : String) : Option Int :=
  let cs := chars timeStr
  if cs.length = 4 ∧ cs.all Char.isDigit then
    let h := digitsVal (cs.take 2)
    let m := digitsVal (cs.drop 2)
    if h ≤ 23 ∧ m ≤ 59 then some ((h : Int) * 60 + m) else none
  else none

/-- Pushover priority levels from `internal/notify/pushover.go`. -/
def PriorityNormal : Int := 0

/-- Pushover priority level `PriorityHigh` from `internal/notify/pushover.go`. -/
def PriorityHigh : Int := 1

/-- A push notification handed to the notifier (`internal/notify/pushover.go`),
with the priority each `Send…` helper attaches. -/
inductive Notification where
  | trainDelay (trainID fromStation toStation : String) (delayMinutes : Int)
      (expectedTime platform : String) (priority : Int)
  | trainOnTime (trainID fromStation toStation departureTime platform : String)
      (priority : Int)
  | trainCancellation (trainID fromStation toStation reason : String) (priority : Int)
  | trainArrival (trainID station arrivalTime : String) (priority : Int)
  | tubeDisruption (status reason : String) (priority : Int)
  | tubeStatus (status reason : String) (priority : Int)
  deriving DecidableEq

/-- The fields of `rtt.LocationDetail` the monitor reads. -/
structure LocationDetail where
  gbttBookedDeparture : String
  realtimeDeparture : String
  platform : String
  displayAs : String
  cancelReasonShortText : String
  deriving DecidableEq

/-- The fields of `rtt.Service` the monitor reads. -/
structure Service where
  serviceUid : String
  locationDetail : LocationDetail
  deriving DecidableEq

/-- The fields of `rtt.ServiceLocation` (one stop of a service detail
response) the arrival check reads. -/
structure ServiceLocation where
  crs : String
  gbttBookedArrival : String
  realtimeArrival : String
  realtimeArrivalActual : Bool
  deriving DecidableEq

/-- The mutable dedup state of `TrainMonitor`: `notifiedDelays` and
`notifiedCancels` are Go maps with zero-value defaults (0 and false), modelled
as total functions. -/
structure TrainState where
  notifiedDelays : String → Int
  notifiedCancels : String → Bool

/-- The state of a freshly constructed `TrainMonitor` (`NewTrainMonitor`):
both maps empty, so every lookup gives the zero value. -/
def newTrainState : TrainState :=
  { notifiedDelays := fun _ => 0, notifiedCancels := fun _ => false }

/-- Method `TrainMonitor.ResetNotificationState`: both maps are replaced by fresh
empty maps. -/
def TrainState.resetNotificationState (_ : TrainState) : TrainState :=
  { notifiedDelays := fun _ => 0, notifiedCancels := fun _ => false }

/-- Function `findMatchingService` from `internal/monitor/train.go`: the first service
whose booked departure equals the target time or has the target time as a
prefix (`strings.HasPrefix(bookedDep, targetTime)`). -/
def findMatchingService (services : List Service) (targetTime : String) : Option Service :=
  services.find? fun svc =>
    svc.locationDetail.gbttBookedDeparture == targetTime
      || goStartsWith svc.locationDetail.gbttBookedDeparture targetTime

/-- Function `handleCancellation` from `internal/monitor/train.go`: read the
per-service latch; if unset, set it and send a high-priority cancellation
alert (with a placeholder reason when none is given); if already set,
suppress. -/
def handleCancellation (st : TrainState) (svc : Service) (fromStation toStation : String) :
    Option Notification × TrainState :=
  let alreadyNotified := st.notifiedCancels svc.serviceUid
  let st' :=
    if alreadyNotified then st
    else { st with notifiedCancels := fun k =>
            if k = svc.serviceUid then true else st.notifiedCancels k }
  if alreadyNotified then (none, st')
  else
    let reason :=
      if svc.locationDetail.cancelReasonShortText = "" then "No reason provided"
      else svc.locationDetail.cancelReasonShortText
    (some (.trainCancellation svc.serviceUid fromStation toStation reason PriorityHigh), st')

/-- Function `handleDelay` from `internal/monitor/train.go`: bucket the delay into
5-minute bands (Go integer division truncates toward zero, `Int.tdiv`); notify
only when the bucket strictly exceeds the stored high-water mark, raising the
mark on notify. -/
def handleDelay (st : TrainState) (svc : Service) (fromStation toStation : String)
    (delayMins : Int) : Option Notification × TrainState :=
  let delayBucket := delayMins.tdiv 5 * 5
  let lastBucket := st.notifiedDelays svc.serviceUid
  if delayBucket > lastBucket then
    let st' := { st with notifiedDelays := fun k =>
                  if k = svc.serviceUid then delayBucket else st.notifiedDelays k }
    let platform :=
      if svc.locationDetail.platform = "" then "TBC" else svc.locationDetail.platform
    (some (.trainDelay svc.serviceUid fromStation toStation delayMins
            svc.locationDetail.realtimeDeparture platform PriorityHigh), st')
  else (none, st)

/-- Function `processService` from `internal/monitor/train.go`: dispatch a matched
service to the cancellation path, the delay path (always-notify or gated), or
the on-time path. -/
def processService (st : TrainState) (svc : Service) (fromStation toStation : String)
    (alwaysNotify : Bool) : Option Notification × TrainState :=
  let detail := svc.locationDetail
  if detail.displayAs = "CANCELLED_CALL" ∨ detail.displayAs = "CANCELLED" then
    handleCancellation st svc fromStation toStation
  else
    let platform := if detail.platform = "" then "TBC" else detail.platform
    let delayMins :=
      if detail.realtimeDeparture ≠ "" ∧ detail.gbttBookedDeparture ≠ "" then
        calculateDelay detail.gbttBookedDeparture detail.realtimeDeparture
      else 0
    if delayMins > 0 then
      if alwaysNotify then
        (some (.trainDelay svc.serviceUid fromStation toStation delayMins
                detail.realtimeDeparture platform PriorityHigh), st)
      else handleDelay st svc fromStation toStation delayMins
    else if alwaysNotify then
      (some (.trainOnTime svc.serviceUid fromStation toStation
              detail.gbttBookedDeparture platform PriorityNormal), st)
    else (none, st)

/-- Method `TrainMonitor.CheckDelay`: parse the departure time (error on failure);
a nil/empty search response or an unmatched departure time is a recoverable
no-op; otherwise process the matched service in gated mode
(`alwaysNotify = false`).  The search response is passed in as data
(`none` = nil response). -/
def checkDelay (st : TrainState) (resp : Option (List Service))
    (fromStation toStation departureTime : String) :
    Except String (Option Notification × TrainState) :=
  match parseTimeToday departureTime with
  | none => .error ("parsing departure time")
  | some _ =>
    match resp with
    | none => .ok (none, st)
    | some services =>
      if services.length = 0 then .ok (none, st)
      else
        match findMatchingService services departureTime with
        | none => .ok (none, st)
        | some service => .ok (processService st service fromStation toStation false)

/-- Method `TrainMonitor.CheckStatus`: identical to `checkDelay` but processes the
matched service in always-notify mode (`alwaysNotify = true`). -/
def trainCheckStatus (st : TrainState) (resp : Option (List Service))
    (fromStation toStation departureTime : String) :
    Except String (Option Notification × TrainState) :=
  match parseTimeToday departureTime with
  | none => .error ("parsing departure time")
  | some _ =>
    match resp with
    | none => .ok (none, st)
    | some services =>
      if services.length = 0 then .ok (none, st)
      else
        match findMatchingService services departureTime with
        | none => .ok (none, st)
        | some service => .ok (processService st service fromStation toStation true)

/-- Method `TrainMonitor.CheckArrival`: parse the departure time (error on failure);
nil/empty search response or no matching service reports not-arrived without
error; otherwise scan the service detail's stops for the destination CRS (the
Go loop breaks at the first hit, i.e. `List.find?`) and, when its
realtime-arrival-actual flag is set, send an arrival notification and report
arrived.  The dedup state is never touched. -/
def checkArrival (resp : Option (List Service)) (detailLocations : List ServiceLocation)
    (toStation departureTime : String) :
    Except String (Bool × Option Notification) :=
  match parseTimeToday departureTime with
  | none => .error ("parsing departure time")
  | some _ =>
    match resp with
    | none => .ok (false, none)
    | some services =>
      if services.length = 0 then .ok (false, none)
      else
        match findMatchingService services departureTime with
        | none => .ok (false, none)
        | some service =>
          match detailLocations.find? (fun loc => loc.crs == toStation) with
          | none => .ok (false, none)
          | some loc =>
            if loc.realtimeArrivalActual then
              let arrivalTime :=
                if loc.realtimeArrival = "" then loc.gbttBookedArrival
                else loc.realtimeArrival
              .ok (true, some (.trainArrival service.serviceUid toStation arrivalTime
                                PriorityNormal))
            else .ok (false, none)

/-!  The line (tube) dedup state machine, `internal/monitor/tube.go` and
`internal/api/tfl/types.go`. -/

/-- TfL severity constant `StatusGoodService`. -/
def StatusGoodService : Int := 10

/-- TfL severity constant `StatusServiceClosed`. -/
def StatusServiceClosed : Int := 6

/-- The fields of `tfl.StatusDetail` the monitor reads. -/
structure StatusDetail where
  statusSeverity : Int
  statusSeverityDescription : String
  reason : String
  deriving DecidableEq

/-- Method `StatusDetail.IsGoodService`. -/
def StatusDetail.isGoodService (s : StatusDetail) : Bool :=
  s.statusSeverity == StatusGoodService

/-- Method `StatusDetail.HasDisruption`: severity strictly below good service,
excluding service-closed. -/
def StatusDetail.hasDisruption (s : StatusDetail) : Bool :=
  s.statusSeverity < StatusGoodService && s.statusSeverity != StatusServiceClosed

/-- The mutable state of `TubeMonitor`: the last observed
`(description, reason)` pair, both `""` before the first observation. -/
structure TubeState where
  lastStatus : String
  lastStatusReason : String
  deriving DecidableEq

/-- The state of a freshly constructed `TubeMonitor` (`NewTubeMonitor`):
Go zero values, both strings empty. -/
def newTubeState : TubeState :=
  { lastStatus := "", lastStatusReason := "" }

/-- Method `TubeMonitor.ResetNotificationState`: both stored strings set to `""`. -/
def TubeState.resetNotificationState (_ : TubeState) : TubeState :=
  { lastStatus := "", lastStatusReason := "" }

/-- Method `TubeMonitor.CheckStatus` on a successfully fetched status (the list of
`LineStatuses`; an empty list is a logged no-op).  Change detection against
the stored pair, first-check good-service suppression, disruption alerting
with a placeholder for an empty reason, and unconditional overwrite of the
stored pair. -/
def tubeCheckStatus (st : TubeState) (lineStatuses : List StatusDetail) :
    Option Notification × TubeState :=
  match lineStatuses with
  | [] => (none, st)
  | currentStatus :: _ =>
    let statusDesc := currentStatus.statusSeverityDescription
    let reason := currentStatus.reason
    let statusChanged := st.lastStatus ≠ statusDesc ∨ st.lastStatusReason ≠ reason
    let isFirstCheck := st.lastStatus = ""
    let st' : TubeState := { lastStatus := statusDesc, lastStatusReason := reason }
    if ¬statusChanged then (none, st')
    else if isFirstCheck ∧ currentStatus.isGoodService then (none, st')
    else if currentStatus.hasDisruption ∨ (¬isFirstCheck ∧ statusChanged) then
      let reason' := if reason = "" then "No additional details" else reason
      (some (.tubeDisruption statusDesc reason' PriorityHigh), st')
    else (none, st')

/-!  The time-window task scheduler, `internal/scheduler/scheduler.go`.
Instants and durations are integer seconds. -/

/-- One second, the time unit of the scheduler model. -/
def second : Int := 1

/-- One minute of Go `time.Duration`, in model units. -/
def minute : Int := 60 * second

/-- Enum `scheduler.TaskType`. -/
inductive TaskType where
  | morningDelayCheck
  | eveningDelayCheck
  | morningArrivalCheck
  | eveningArrivalCheck
  | northernLineCheck
  | northernLineSummary
  | morningStatusUpdate
  | eveningStatusUpdate
  deriving DecidableEq

/-- Whether a task type is one of the two arrival-check kinds (the cases of
the `executeTask` switch that mutate the task beyond `Executed`). -/
def TaskType.isArrivalCheck : TaskType → Bool
  | .morningArrivalCheck => true
  | .eveningArrivalCheck => true
  | _ => false

/-- Struct `scheduler.Task`: kind, scheduled instant, and the two mutable flags. -/
structure Task where
  type : TaskType
  time : Int
  executed : Bool
  repeating : Bool
  deriving DecidableEq

/-- Method `Scheduler.isWithinWindow`: `diff := now.Sub(taskTime); diff >= 0 &&
diff < window`. -/
def isWithinWindow (taskTime now window : Int) : Bool :=
  let diff := now - taskTime
  decide (diff ≥ 0) && decide (diff < window)

/-- The state effect of `Scheduler.executeTask` on its task.  The monitor
checks only log their errors, so the sole inputs that matter are the task and,
for the two arrival-check kinds, the `arrived` flag returned by
`CheckArrival` (passed here as an oracle and ignored for every other kind).
On arrival the task stops repeating; otherwise an arrival check advances its
scheduled time by 5 minutes.  Finally every non-repeating task — whether or
not its check returned an error — is marked executed. -/
def executeTask (task : Task) (arrived : Bool) : Task :=
  let task :=
    if task.type.isArrivalCheck then
      if arrived then { task with repeating := false }
      else { task with time := task.time + 5 * minute }
    else task
  if !task.repeating then { task with executed := true } else task

/-- The per-task body of `Scheduler.tick`: skip tasks already executed and
not repeating; otherwise execute exactly when `now` is within the 2-minute
tolerance window.  Returns whether the task fired together with its new
state. -/
def tickTask (now : Int) (arrived : Bool) (task : Task) : Bool × Task :=
  if task.executed && !task.repeating then (false, task)
  else if isWithinWindow task.time now (2 * minute) then (true, executeTask task arrived)
  else (false, task)

/-- Run one task through a sequence of ticks, each given by the tick's `now`
and the arrival oracle for that tick; returns how often the task fired and
its final state. -/
def runTicks : List (Int × Bool) → Task → Nat × Task
  | [], task => (0, task)
  | (now, arrived) :: rest, task =>
    let (fired, task') := tickTask now arrived task
    let (n, task'') := runTicks rest task'
    ((if fired then 1 else 0) + n, task'')

/-- The day-rollover branch of `Scheduler.tick`
(`now.Day() != s.currentDay`): reset both dedup state machines
(`ResetNotificationState` on each monitor) before rebuilding the tasks. -/
def dayRolloverReset (train : TrainState) (tube : TubeState) : TrainState × TubeState :=
  (train.resetNotificationState, tube.resetNotificationState)

/-- Feed a sequence of gated delay observations for one service through
`handleDelay`, collecting the bucket of every observation that produced a
notification. -/
def runDelays (svc : Service) (fromStation toStation : String) :
    TrainState → List Int → List Int
  | _, [] => []
  | st, d :: ds =>
    match handleDelay st svc fromStation toStation d with
    | (some _, st') => (d.tdiv 5 * 5) :: runDelays svc fromStation toStation st' ds
    | (none, st') => runDelays svc fromStation toStation st' ds

/-- Feed a number of consecutive cancelled observations of one service through
`handleCancellation`, counting the notifications sent. -/
def runCancels (svc : Service) (fromStation toStation : String) :
    TrainState → Nat → Nat
  | _, 0 => 0
  | st, n + 1 =>
    match handleCancellation st svc fromStation toStation with
    | (some _, st') => 1 + runCancels svc fromStation toStation st' n
    | (none, st') => runCancels svc fromStation toStation st' n

/-- Modelled from the spec's words, for comparison with `findMatchingService`:
"select the first service whose scheduled-departure string equals or is a
textual prefix of the target departure time" — i.e. the service's
booked-departure string equals the target or is a prefix of the target. -/
def findMatchingServiceSpec (services : List Service) (targetTime : String) : Option Service :=
  services.find? fun svc =>
    svc.locationDetail.gbttBookedDeparture == targetTime
      || goStartsWith targetTime svc.locationDetail.gbttBookedDeparture

/-- The notification `handleCancellation` sends on a first observation. -/
def cancellationAlert (svc : Service) (fromStation toStation : String) : Notification :=
  .trainCancellation svc.serviceUid fromStation toStation
    (if svc.locationDetail.cancelReasonShortText = "" then "No reason provided"
     else svc.locationDetail.cancelReasonShortText) PriorityHigh

/-- The predicate `findMatchingService` applies to each service in source
order. -/
def serviceMatches (svc : Service) (targetTime : String) : Bool :=
  svc.locationDetail.gbttBookedDeparture == targetTime
    || goStartsWith svc.locationDetail.gbttBookedDeparture targetTime

/-! ## Theorems -/

/-- Claim C9. For every scheduled/realtime pair that both parse as HHMM times,
the computed delay is the realtime departure minus the scheduled departure in
whole minutes, floored at zero: a negative difference yields 0, never a
negative delay. -/
theorem calculateDelay_clamped_diff (scheduled actual : String) (s a : Int)
    (hs : parseHHMM scheduled = some s) (ha : parseHHMM actual = some a) :
    calculateDelay scheduled actual = max 0 (a - s) := by
  unfold calculateDelay
  rw [hs, ha]
  simp only []
  split
  · omega
  · omega

theorem calculateDelay_clamped_diff_witness :
    calculateDelay "0720" "0735" = max 0 (455 - 440) ∧
      calculateDelay "0745" "0730" = max 0 (450 - 465) :=
  ⟨calculateDelay_clamped_diff "0720" "0735" 440 455 (by decide) (by decide),
   calculateDelay_clamped_diff "0745" "0730" 465 450 (by decide) (by decide)⟩

/-- Claim C10. When either departure string fails HHMM parsing,
`calculateDelay` returns 0 rather than an error, and consequently a gated
(non-cancelled) service processed with such a malformed realtime value
produces no notification at all and leaves the dedup state unchanged. -/
theorem calculateDelay_parse_failure_zero (st : TrainState) (svc : Service)
    (fromStation toStation : String)
    (h : parseHHMM svc.locationDetail.gbttBookedDeparture = none ∨
         parseHHMM svc.locationDetail.realtimeDeparture = none)
    (hc : ¬(svc.locationDetail.displayAs = "CANCELLED_CALL" ∨
            svc.locationDetail.displayAs = "CANCELLED")) :
    calculateDelay svc.locationDetail.gbttBookedDeparture
        svc.locationDetail.realtimeDeparture = 0 ∧
      processService st svc fromStation toStation false = (none, st) := by
  have hzero : calculateDelay svc.locationDetail.gbttBookedDeparture
      svc.locationDetail.realtimeDeparture = 0 := by
    unfold calculateDelay
    rcases h with h | h
    · rw [h]
    · rcases hh : parseHHMM svc.locationDetail.gbttBookedDeparture with _ | v
      · rfl
      · rw [h]
  refine ⟨hzero, ?_⟩
  unfold processService
  rw [if_neg hc]
  simp only [hzero, ite_self]
  norm_num

theorem calculateDelay_parse_failure_zero_witness :
    calculateDelay "0720" "xx" = 0 ∧
      processService newTrainState ⟨"S1", ⟨"0720", "xx", "2", "CALL", ""⟩⟩
        "KGX" "CBG" false = (none, newTrainState) :=
  calculateDelay_parse_failure_zero newTrainState ⟨"S1", ⟨"0720", "xx", "2", "CALL", ""⟩⟩
    "KGX" "CBG" (Or.inr (by decide)) (by decide)

/-- Lemma: `handleDelay` fires exactly when the observation's bucket strictly
exceeds the stored high-water mark. -/
lemma handleDelay_fires_iff (st : TrainState) (svc : Service) (fs ts : String) (d : Int) :
    (handleDelay st svc fs ts d).1.isSome = true ↔
      st.notifiedDelays svc.serviceUid < d.tdiv 5 * 5 := by
  unfold handleDelay
  by_cases h : d.tdiv 5 * 5 > st.notifiedDelays svc.serviceUid
  · simp [h]
  · simp [h]

/-- The high-water mark after `handleDelay`: raised to the bucket when it
fires, untouched otherwise. -/
lemma handleDelay_hwm (st : TrainState) (svc : Service) (fs ts : String) (d : Int) :
    (handleDelay st svc fs ts d).2.notifiedDelays svc.serviceUid =
      if st.notifiedDelays svc.serviceUid < d.tdiv 5 * 5 then d.tdiv 5 * 5
      else st.notifiedDelays svc.serviceUid := by
  unfold handleDelay
  by_cases h : d.tdiv 5 * 5 > st.notifiedDelays svc.serviceUid
  · simp [h]
  · simp [h]

/-- When `handleDelay` does not fire, the state is returned unchanged. -/
lemma handleDelay_no_fire (st : TrainState) (svc : Service) (fs ts : String) (d : Int)
    (h : ¬ st.notifiedDelays svc.serviceUid < d.tdiv 5 * 5) :
    handleDelay st svc fs ts d = (none, st) := by
  unfold handleDelay
  simp [h]

/-- Unfolding equation of `runDelays` on a nonempty observation list. -/
lemma runDelays_cons (svc : Service) (fs ts : String) (st : TrainState) (d : Int)
    (ds : List Int) :
    runDelays svc fs ts st (d :: ds) =
      match handleDelay st svc fs ts d with
      | (some _, st') => (d.tdiv 5 * 5) :: runDelays svc fs ts st' ds
      | (none, st') => runDelays svc fs ts st' ds := rfl

/-- Every bucket in a gated delay run strictly exceeds the high-water mark the
run started from, and the notified buckets are strictly increasing. -/
lemma runDelays_chain (svc : Service) (fs ts : String) (ds : List Int) :
    ∀ st : TrainState,
      (∀ x ∈ runDelays svc fs ts st ds, st.notifiedDelays svc.serviceUid < x) ∧
        List.Chain' (· < ·) (runDelays svc fs ts st ds) := by
  induction ds with
  | nil => intro st; simp [runDelays]
  | cons d ds ih =>
    intro st
    by_cases h : st.notifiedDelays svc.serviceUid < d.tdiv 5 * 5
    · have hfire : (handleDelay st svc fs ts d).1.isSome = true :=
        (handleDelay_fires_iff st svc fs ts d).mpr h
      have hhwm := handleDelay_hwm st svc fs ts d
      rcases hhd : handleDelay st svc fs ts d with ⟨notif', st'⟩
      rw [hhd] at hfire hhwm
      rcases notif' with _ | notif
      · simp at hfire
      · have hrun : runDelays svc fs ts st (d :: ds) =
            (d.tdiv 5 * 5) :: runDelays svc fs ts st' ds := by
          rw [runDelays_cons, hhd]
        rw [if_pos h] at hhwm
        obtain ⟨ihmem, ihchain⟩ := ih st'
        rw [hhwm] at ihmem
        constructor
        · intro x hx
          rw [hrun] at hx
          rcases List.mem_cons.mp hx with hx | hx
          · omega
          · have := ihmem x hx
            omega
        · rw [hrun]
          refine List.chain'_cons'.mpr ⟨?_, ihchain⟩
          intro b hb
          exact ihmem b (List.mem_of_mem_head? hb)
    · have hrun : runDelays svc fs ts st (d :: ds) = runDelays svc fs ts st ds := by
        rw [runDelays_cons, handleDelay_no_fire st svc fs ts d h]
      obtain ⟨ihmem, ihchain⟩ := ih st
      rw [hrun]
      exact ⟨ihmem, ihchain⟩

/-- Claim C1. In gated mode, `handleDelay` sends a delay notification if and
only if the observation's 5-minute bucket (`delay / 5 * 5`, truncating
division) strictly exceeds the highest bucket previously notified for the
service; on sending, the stored high-water mark becomes that bucket; and over
any sequence of gated delay observations for one service, the sequence of
notified buckets is strictly increasing — a later smaller delay never
re-triggers a lower bucket. -/
theorem handleDelay_bucket_monotone (st : TrainState) (svc : Service)
    (fromStation toStation : String) (d : Int) (ds : List Int) :
    ((handleDelay st svc fromStation toStation d).1.isSome = true ↔
        st.notifiedDelays svc.serviceUid < d.tdiv 5 * 5) ∧
      ((handleDelay st svc fromStation toStation d).2.notifiedDelays svc.serviceUid =
        if st.notifiedDelays svc.serviceUid < d.tdiv 5 * 5 then d.tdiv 5 * 5
        else st.notifiedDelays svc.serviceUid) ∧
      List.Chain' (· < ·) (runDelays svc fromStation toStation st ds) :=
  ⟨handleDelay_fires_iff st svc fromStation toStation d,
   handleDelay_hwm st svc fromStation toStation d,
   (runDelays_chain svc fromStation toStation ds st).2⟩

/-- Lemma: `handleCancellation` sends the high-priority alert exactly when the latch
is unset, and leaves the state unchanged otherwise. -/
lemma handleCancellation_fst (st : TrainState) (svc : Service) (fs ts : String) :
    (handleCancellation st svc fs ts).1 =
      if st.notifiedCancels svc.serviceUid then none
      else some (cancellationAlert svc fs ts) := by
  unfold handleCancellation cancellationAlert
  by_cases h : st.notifiedCancels svc.serviceUid
  · simp [h]
  · simp [h]

/-- The latch after `handleCancellation`: set at the observed service, and
every latch that was set stays set. -/
lemma handleCancellation_latch (st : TrainState) (svc : Service) (fs ts k : String) :
    (handleCancellation st svc fs ts).2.notifiedCancels k =
      (decide (k = svc.serviceUid) || st.notifiedCancels k) := by
  unfold handleCancellation
  by_cases h : st.notifiedCancels svc.serviceUid
  · by_cases hk : k = svc.serviceUid
    · simp [h, hk]
    · simp [h, hk]
  · by_cases hk : k = svc.serviceUid
    · simp [h, hk]
    · simp [h, hk]

/-- Once the latch is set, a run of further cancelled observations sends
nothing. -/
lemma runCancels_latched (svc : Service) (fs ts : String) (n : Nat) :
    ∀ st : TrainState, st.notifiedCancels svc.serviceUid = true →
      runCancels svc fs ts st n = 0 := by
  induction n with
  | zero => intro st _; rfl
  | succ n ih =>
    intro st h
    have hfst := handleCancellation_fst st svc fs ts
    rw [if_pos h] at hfst
    have hlatch := handleCancellation_latch st svc fs ts svc.serviceUid
    rcases hhc : handleCancellation st svc fs ts with ⟨notif', st'⟩
    rw [hhc] at hfst hlatch
    simp only at hfst hlatch
    show (match handleCancellation st svc fs ts with
      | (some _, st') => 1 + runCancels svc fs ts st' n
      | (none, st') => runCancels svc fs ts st' n) = 0
    rw [hhc, hfst]
    exact ih st' (by rw [hlatch]; simp [h])

/-- Claim C2. A cancellation notifies exactly once per day: the first cancelled
observation of a service sends the high-priority alert and records the
service as notified, every later cancelled observation of that service is
suppressed silently, the latch is never un-set before the day-rollover reset,
and a run of `n ≥ 1` cancelled observations from the fresh daily state sends
exactly one alert. -/
theorem handleCancellation_once_per_day (st : TrainState) (svc : Service)
    (fromStation toStation k : String) (n : Nat) :
    ((handleCancellation st svc fromStation toStation).1 =
        if st.notifiedCancels svc.serviceUid then none
        else some (cancellationAlert svc fromStation toStation)) ∧
      ((handleCancellation st svc fromStation toStation).2.notifiedCancels k =
        (decide (k = svc.serviceUid) || st.notifiedCancels k)) ∧
      runCancels svc fromStation toStation newTrainState n = min n 1 := by
  refine ⟨handleCancellation_fst st svc fromStation toStation,
    handleCancellation_latch st svc fromStation toStation k, ?_⟩
  cases n with
  | zero => rfl
  | succ n =>
    have hfst := handleCancellation_fst newTrainState svc fromStation toStation
    have hlatch := handleCancellation_latch newTrainState svc fromStation toStation
      svc.serviceUid
    have hfresh : newTrainState.notifiedCancels svc.serviceUid = false := rfl
    rw [if_neg (by rw [hfresh]; exact Bool.false_ne_true)] at hfst
    rcases hhc : handleCancellation newTrainState svc fromStation toStation with ⟨notif', st'⟩
    rw [hhc] at hfst hlatch
    simp only at hfst hlatch
    show (match handleCancellation newTrainState svc fromStation toStation with
      | (some _, st') => 1 + runCancels svc fromStation toStation st' n
      | (none, st') => runCancels svc fromStation toStation st' n) = min (n + 1) 1
    rw [hhc, hfst]
    show 1 + runCancels svc fromStation toStation st' n = min (n + 1) 1
    rw [runCancels_latched svc fromStation toStation n st' (by rw [hlatch]; simp)]
    omega

/-- Claim C3. The day-rollover reset restores both dedup state machines to
their initial empty state, so their behaviour afterwards equals that of
freshly constructed monitors; in particular a delay bucket notified yesterday
(hence strictly positive) notifies again today at the same bucket, and the
line monitor is back in the no-observation-yet state. -/
theorem dayRollover_resets_to_initial (train : TrainState) (tube : TubeState)
    (svc : Service) (fromStation toStation : String) (d : Int)
    (statuses : List StatusDetail)
    (hd : 0 < d.tdiv 5 * 5) :
    dayRolloverReset train tube = (newTrainState, newTubeState) ∧
      train.resetNotificationState = newTrainState ∧
      tube.resetNotificationState = newTubeState ∧
      handleDelay train.resetNotificationState svc fromStation toStation d =
        handleDelay newTrainState svc fromStation toStation d ∧
      (handleDelay train.resetNotificationState svc fromStation toStation d).1.isSome
        = true ∧
      handleCancellation train.resetNotificationState svc fromStation toStation =
        handleCancellation newTrainState svc fromStation toStation ∧
      tubeCheckStatus tube.resetNotificationState statuses =
        tubeCheckStatus newTubeState statuses ∧
      (tube.resetNotificationState).lastStatus = "" := by
  refine ⟨rfl, rfl, rfl, rfl, ?_, rfl, rfl, rfl⟩
  apply (handleDelay_fires_iff train.resetNotificationState svc fromStation toStation d).mpr
  show (0 : Int) < d.tdiv 5 * 5
  exact hd

theorem dayRollover_resets_to_initial_witness :
    (0 : Int) < (15 : Int).tdiv 5 * 5 ∧
      (handleDelay
        (TrainState.resetNotificationState
          { notifiedDelays := fun _ => 15, notifiedCancels := fun _ => true })
        ⟨"W12345", ⟨"0720", "0735", "2", "CALL", ""⟩⟩ "KGX" "CBG" 15).1.isSome = true :=
  ⟨by decide,
   (dayRollover_resets_to_initial
      { notifiedDelays := fun _ => 15, notifiedCancels := fun _ => true }
      newTubeState ⟨"W12345", ⟨"0720", "0735", "2", "CALL", ""⟩⟩ "KGX" "CBG" 15 []
      (by decide)).2.2.2.2.1⟩

/-- A task that is executed and not repeating is skipped by every tick,
forever, unchanged. -/
lemma runTicks_skip (obs : List (Int × Bool)) :
    ∀ t : Task, t.executed = true → t.repeating = false → runTicks obs t = (0, t) := by
  induction obs with
  | nil => intro t _ _; rfl
  | cons p rest ih =>
    intro t hex hrep
    have hstep : tickTask p.1 p.2 t = (false, t) := by
      unfold tickTask
      rw [hex, hrep]
      rfl
    show (let (fired, t') := tickTask p.1 p.2 t
          let (n, t'') := runTicks rest t'
          ((if fired then 1 else 0) + n, t'')) = (0, t)
    rw [hstep]
    simp only []
    rw [ih t hex hrep]
    rfl

/-- A tick never fires a task outside its tolerance window, and leaves such a
task unchanged. -/
lemma tickTask_miss (now : Int) (arrived : Bool) (t : Task)
    (h : isWithinWindow t.time now (2 * minute) = false) :
    tickTask now arrived t = (false, t) := by
  unfold tickTask
  rw [h]
  split
  · rfl
  · rfl

/-- Claim C4. On each tick a task that is not yet executed (or is recurring)
executes if and only if `now` lies in the forward window
`0 ≤ now − scheduledAt < 2 minutes`; and a non-recurring task none of whose
ticks falls inside that window never executes at all — it is permanently
skipped, with no catch-up at a later tick. -/
theorem tick_window_exactness (t : Task) (now : Int) (arrived : Bool)
    (obs : List (Int × Bool))
    (hrep : t.repeating = false)
    (hmiss : ∀ p ∈ obs, isWithinWindow t.time p.1 (2 * minute) = false) :
    ((tickTask now arrived t).1 =
        (!(t.executed && !t.repeating) && isWithinWindow t.time now (2 * minute))) ∧
      runTicks obs t = (0, t) := by
  constructor
  · unfold tickTask
    by_cases hskip : t.executed && !t.repeating
    · simp [hskip]
    · rw [if_neg (by simpa using hskip)]
      by_cases hw : isWithinWindow t.time now (2 * minute)
      · simp [hskip, hw]
      · simp [hskip, hw]
  · induction obs with
    | nil => rfl
    | cons p rest ih =>
      have hstep : tickTask p.1 p.2 t = (false, t) :=
        tickTask_miss p.1 p.2 t (hmiss p (List.mem_cons_self p rest))
      show (let (fired, t') := tickTask p.1 p.2 t
            let (n, t'') := runTicks rest t'
            ((if fired then 1 else 0) + n, t'')) = (0, t)
      rw [hstep]
      simp only []
      rw [ih (fun q hq => hmiss q (List.mem_cons_of_mem p hq))]
      rfl

theorem tick_window_exactness_witness :
    ((tickTask 90 false ⟨.morningDelayCheck, 0, false, false⟩).1 =
        (!((false : Bool) && !(false : Bool)) && isWithinWindow 0 90 (2 * minute))) ∧
      runTicks [(200, false), (4000, true)] ⟨.morningDelayCheck, 0, false, false⟩ =
        (0, ⟨.morningDelayCheck, 0, false, false⟩) :=
  tick_window_exactness ⟨.morningDelayCheck, 0, false, false⟩ 90 false
    [(200, false), (4000, true)] rfl (by decide)

/-- Claim C5. An arrival-check task that reports arrived is marked
non-recurring and executed and never executes again for the rest of the day;
an execution reporting not-arrived instead advances the task's scheduled time
by exactly 5 minutes and leaves it recurring. -/
theorem arrival_task_terminal (t : Task) (obs : List (Int × Bool))
    (hk : t.type.isArrivalCheck = true)
    (hr : t.repeating = true) :
    executeTask t true = { t with repeating := false, executed := true } ∧
      executeTask t false = { t with time := t.time + 5 * minute } ∧
      runTicks obs (executeTask t true) = (0, executeTask t true) := by
  have harr : executeTask t true = { t with repeating := false, executed := true } := by
    unfold executeTask
    rw [hk]
    rfl
  have hnot : executeTask t false = { t with time := t.time + 5 * minute } := by
    unfold executeTask
    rw [hk, hr]
    rfl
  refine ⟨harr, hnot, ?_⟩
  rw [harr]
  exact runTicks_skip obs _ rfl rfl

theorem arrival_task_terminal_witness :
    executeTask ⟨.morningArrivalCheck, 100, false, true⟩ true =
        ⟨.morningArrivalCheck, 100, true, false⟩ ∧
      executeTask ⟨.morningArrivalCheck, 100, false, true⟩ false =
        ⟨.morningArrivalCheck, 100 + 5 * minute, false, true⟩ ∧
      runTicks [(100, false), (460, true)]
          (executeTask ⟨.morningArrivalCheck, 100, false, true⟩ true) =
        (0, executeTask ⟨.morningArrivalCheck, 100, false, true⟩ true) :=
  arrival_task_terminal ⟨.morningArrivalCheck, 100, false, true⟩
    [(100, false), (460, true)] rfl rfl

/-- Claim C6. On every successful line-status check: an unchanged
`(description, reason)` pair never notifies; a changed pair that is the day's
first observation of a good-service status never notifies; otherwise a
disruption alert is sent exactly when the status has a disruption (severity
worse than good service, excluding service-closed) or the change comes after
the first observation, substituting a placeholder when the reason is empty;
and in every case the stored pair is overwritten with the new observation. -/
theorem tubeCheckStatus_change_detection (st : TubeState) (cur : StatusDetail)
    (rest : List StatusDetail) :
    tubeCheckStatus st (cur :: rest) =
      ((if st.lastStatus = cur.statusSeverityDescription ∧
            st.lastStatusReason = cur.reason then none
        else if st.lastStatus = "" ∧ cur.isGoodService then none
        else if cur.hasDisruption ∨
            (st.lastStatus ≠ "" ∧
              (st.lastStatus ≠ cur.statusSeverityDescription ∨
                st.lastStatusReason ≠ cur.reason)) then
          some (.tubeDisruption cur.statusSeverityDescription
            (if cur.reason = "" then "No additional details" else cur.reason)
            PriorityHigh)
        else none),
       { lastStatus := cur.statusSeverityDescription,
         lastStatusReason := cur.reason }) := by
  unfold tubeCheckStatus
  by_cases h1 : st.lastStatus = cur.statusSeverityDescription <;>
    by_cases h2 : st.lastStatusReason = cur.reason <;>
      by_cases h3 : st.lastStatus = "" <;>
        by_cases h4 : cur.isGoodService = true <;>
          by_cases h5 : cur.hasDisruption = true <;>
            simp [h1, h2, h3, h4, h5] <;>
              split_ifs <;> rfl

/-- Lemma: `List.find?` returns the first element satisfying the predicate. -/
lemma find?_first {α : Type} (p : α → Bool) (pre post : List α) (s : α)
    (hpre : ∀ x ∈ pre, p x = false) (hs : p s = true) :
    (pre ++ s :: post).find? p = some s := by
  induction pre with
  | nil => simp [List.find?_cons, hs]
  | cons a as ih =>
    have ha : p a = false := hpre a (List.mem_cons_self a as)
    rw [List.cons_append, List.find?_cons, ha]
    exact ih fun x hx => hpre x (List.mem_cons_of_mem a hx)

/-- Claim C7, counterexample. The claim reads the match rule as "the service's
scheduled-departure string equals or is a textual prefix of the target":
for a service booked `"07"` and target `"0730"`, that rule selects the
service, but `findMatchingService` (which tests `strings.HasPrefix(bookedDep,
targetTime)`, i.e. the target is a prefix of the service's string) selects
nothing; conversely for a service booked `"073015"` the code selects it while
the claim's rule does not. -/
theorem findMatchingService_prefix_direction_counterexample :
    findMatchingServiceSpec [⟨"S1", ⟨"07", "", "", "", ""⟩⟩] "0730" =
        some ⟨"S1", ⟨"07", "", "", "", ""⟩⟩ ∧
      findMatchingService [⟨"S1", ⟨"07", "", "", "", ""⟩⟩] "0730" = none ∧
      findMatchingService [⟨"S2", ⟨"073015", "", "", "", ""⟩⟩] "0730" =
        some ⟨"S2", ⟨"073015", "", "", "", ""⟩⟩ ∧
      findMatchingServiceSpec [⟨"S2", ⟨"073015", "", "", "", ""⟩⟩] "0730" = none := by
  refine ⟨?_, ?_, ?_, ?_⟩ <;> decide

/-- Claim C7, amended. Service matching selects, in source order, the first
service whose scheduled-departure string equals the target departure time or
has the target as a textual prefix (the target is a prefix of the service's
string); and for every search result in which no service matches (the target
departure time itself parsing), the delay, status and arrival checks treat it
as "no service today": they return without error, send no notification, and
leave the dedup state unchanged. -/
theorem findMatchingService_first_and_no_match_noop (st : TrainState)
    (services ss pre post : List Service) (s : Service)
    (locs : List ServiceLocation) (fromStation toStation departureTime : String)
    (hp : (parseTimeToday departureTime).isSome = true)
    (hm : findMatchingService services departureTime = none)
    (hss : ss = pre ++ s :: post)
    (hpre : ∀ x ∈ pre, serviceMatches x departureTime = false)
    (hs : serviceMatches s departureTime = true) :
    findMatchingService ss departureTime = some s ∧
      checkDelay st (some services) fromStation toStation departureTime =
        .ok (none, st) ∧
      trainCheckStatus st (some services) fromStation toStation departureTime =
        .ok (none, st) ∧
      checkArrival (some services) locs toStation departureTime =
        .ok (false, none) := by
  obtain ⟨v, hv⟩ := Option.isSome_iff_exists.mp hp
  refine ⟨?_, ?_, ?_, ?_⟩
  · rw [hss]
    exact find?_first _ pre post s hpre hs
  · unfold checkDelay
    simp only [hv]
    by_cases hlen : services.length = 0
    · rw [if_pos hlen]
    · rw [if_neg hlen, hm]
  · unfold trainCheckStatus
    simp only [hv]
    by_cases hlen : services.length = 0
    · rw [if_pos hlen]
    · rw [if_neg hlen, hm]
  · unfold checkArrival
    simp only [hv]
    by_cases hlen : services.length = 0
    · rw [if_pos hlen]
    · rw [if_neg hlen, hm]

theorem findMatchingService_first_and_no_match_noop_witness :
    findMatchingService
        [⟨"S2", ⟨"0815", "", "", "", ""⟩⟩, ⟨"S1", ⟨"073015", "", "", "", ""⟩⟩,
         ⟨"S3", ⟨"0730", "", "", "", ""⟩⟩] "0730" =
        some ⟨"S1", ⟨"073015", "", "", "", ""⟩⟩ ∧
      checkDelay newTrainState (some [⟨"S2", ⟨"0815", "", "", "", ""⟩⟩]) "KGX" "CBG"
        "0730" = .ok (none, newTrainState) ∧
      trainCheckStatus newTrainState (some [⟨"S2", ⟨"0815", "", "", "", ""⟩⟩]) "KGX"
        "CBG" "0730" = .ok (none, newTrainState) ∧
      checkArrival (some [⟨"S2", ⟨"0815", "", "", "", ""⟩⟩]) [] "CBG" "0730" =
        .ok (false, none) :=
  findMatchingService_first_and_no_match_noop newTrainState
    [⟨"S2", ⟨"0815", "", "", "", ""⟩⟩]
    [⟨"S2", ⟨"0815", "", "", "", ""⟩⟩, ⟨"S1", ⟨"073015", "", "", "", ""⟩⟩,
     ⟨"S3", ⟨"0730", "", "", "", ""⟩⟩]
    [⟨"S2", ⟨"0815", "", "", "", ""⟩⟩] [⟨"S3", ⟨"0730", "", "", "", ""⟩⟩]
    ⟨"S1", ⟨"073015", "", "", "", ""⟩⟩ [] "KGX" "CBG" "0730"
    (by decide) (by decide) rfl (by decide) (by decide)

/-- Claim C8, counterexample. A delay check on a malformed departure time fails
with a parse error, yet — contrary to the claim that the task "is not marked
executed: it remains pending, and if a later tick falls inside its still-open
tolerance window the task fires then" — `executeTask` still marks the
non-recurring task executed, and a later tick inside the still-open window
(`now = 60` seconds, window `[0, 120)`) does not fire it. -/
theorem parse_error_still_marks_executed_counterexample :
    checkDelay newTrainState (some [⟨"S1", ⟨"0720", "0725", "1", "CALL", ""⟩⟩])
        "KGX" "CBG" "9am" = .error ("parsing departure time") ∧
      (executeTask ⟨.morningDelayCheck, 0, false, false⟩ false).executed = true ∧
      (tickTask 60 false (executeTask ⟨.morningDelayCheck, 0, false, false⟩ false)).1 =
        false := by
  refine ⟨rfl, rfl, rfl⟩

/-- Claim C8, amended. When a task's check fails with a parse error on a
malformed time string, that execution produces no notification and is
abandoned for the current tick; however the non-recurring task is still
marked executed, so it does not fire at any later tick even if the tolerance
window is still open. -/
theorem parse_error_task_outcome (st : TrainState) (resp : Option (List Service))
    (fromStation toStation departureTime : String) (t : Task) (arrived : Bool)
    (now : Int) (arr : Bool)
    (hparse : parseTimeToday departureTime = none)
    (hrep : t.repeating = false) :
    checkDelay st resp fromStation toStation departureTime =
        .error ("parsing departure time") ∧
      (executeTask t arrived).executed = true ∧
      (executeTask t arrived).repeating = false ∧
      (tickTask now arr (executeTask t arrived)).1 = false := by
  have hexec : (executeTask t arrived).executed = true ∧
      (executeTask t arrived).repeating = false := by
    unfold executeTask
    by_cases hk : t.type.isArrivalCheck = true
    · rw [hk]
      by_cases ha : arrived = true
      · rw [ha]
        simp
      · rw [Bool.eq_false_iff.mpr ha]
        simp [hrep]
    · rw [Bool.eq_false_iff.mpr hk]
      simp [hrep]
  refine ⟨?_, hexec.1, hexec.2, ?_⟩
  · unfold checkDelay
    rw [hparse]
  · unfold tickTask
    rw [hexec.1, hexec.2]
    rfl

theorem parse_error_task_outcome_witness :
    checkDelay newTrainState (some [⟨"S1", ⟨"0720", "0725", "1", "CALL", ""⟩⟩])
        "KGX" "CBG" "9999" = .error ("parsing departure time") ∧
      (executeTask ⟨.eveningDelayCheck, 0, false, false⟩ true).executed = true ∧
      (executeTask ⟨.eveningDelayCheck, 0, false, false⟩ true).repeating = false ∧
      (tickTask 90 true (executeTask ⟨.eveningDelayCheck, 0, false, false⟩ true)).1 =
        false :=
  parse_error_task_outcome newTrainState
    (some [⟨"S1", ⟨"0720", "0725", "1", "CALL", ""⟩⟩]) "KGX" "CBG" "9999"
    ⟨.eveningDelayCheck, 0, false, false⟩ true 90 true (by decide) rfl

end Trainpal
